import Mathlib

/-!
Shallow embedding of the `leads` visualization library.

Source files embedded:
  - `viz_lib/visualizations.py` : abstract base class `Visualizations`
  - `viz_lib/missing_values.py` : `MissingValues` visualization
  - `viz_lib/__init__.py`       : library-level `generate`
  - `main.py`                   : orchestrator `generate_visualizations`

External collaborators (pandas, matplotlib/seaborn, the filesystem) are
modelled as an explicit `World` state together with an event trace, so that
statements about effect ordering (existence check before read, exactly one
file write, figure lifecycle) become statable.  Python exceptions are
modelled by `PyResult`: `ok` carries the returned value, the post-state and
the trace of effects performed; `raised` carries the exception, the state at
the raise point and the effects performed up to it.
-/

/-- A cell of the data table; `none` models a null/NaN (missing) value. -/
abbrev Cell := Option String

/-- The pandas `DataFrame` as the visualization code observes it: a list of
rows of nullable cells. -/
structure DataFrame where
  rows : List (List Cell)
deriving DecidableEq, Repr

/-- `df.isnull()`: same-shape boolean matrix, `true` where the cell is null. -/
def DataFrame.isnull (df : DataFrame) : List (List Bool) :=
  df.rows.map (fun row => row.map Option.isNone)

/-- Contents of a file in the modelled filesystem. -/
inductive FileContent where
  /-- Text file (csv/tsv datasets). -/
  | text (s : String)
  /-- Parquet file; the columnar binary is modelled as already-structured rows. -/
  | parquetData (rows : List (List Cell))
  /-- A saved heatmap image: the figure size and the rendered boolean matrix. -/
  | pngImage (figsize : Nat × Nat) (data : List (List Bool))
deriving DecidableEq, Repr

/-- An in-memory matplotlib figure: its size and the rendered heatmap data
(`none` until `sns.heatmap` draws onto it). -/
structure Figure where
  figsize : Nat × Nat
  content : Option (List (List Bool))
deriving DecidableEq, Repr

/-- The external world: the filesystem (an association list of files, plus the
set of paths where a write raises), and the pyplot state (number of open,
unreleased figures and the current figure). -/
structure World where
  files : List (String × FileContent)
  unwritable : List String
  openFigures : Nat
  current : Option Figure
deriving DecidableEq, Repr

/-- Observable side effects, in program order. -/
inductive Event where
  | checkIsFile (path : String)
  | readFile (path : String)
  | openFigure (figsize : Nat × Nat)
  | renderHeatmap
  | writeFile (path : String)
  | closeFigure
deriving DecidableEq, Repr

/-- Does the event read a file's contents? -/
def Event.isRead : Event → Bool
  | .readFile _ => true
  | _ => false

/-- Does the event write the filesystem? -/
def Event.isWrite : Event → Bool
  | .writeFile _ => true
  | _ => false

/-- Does the event touch the filesystem at all (check, read or write)? -/
def Event.isFsOp : Event → Bool
  | .readFile _ => true
  | .checkIsFile _ => true
  | .writeFile _ => true
  | _ => false

/-- Python exceptions that the embedded code can raise. -/
inductive PyError where
  | fileNotFoundError (msg : String)
  | unboundLocalError
  | decodeError
  | ioError
  | valueError
deriving DecidableEq, Repr

/-- Result of running a fragment of the Python program: a returned value or a
raised exception, together with the final world and the trace of effects. -/
inductive PyResult (α : Type) where
  | ok (val : α) (w : World) (tr : List Event)
  | raised (e : PyError) (w : World) (tr : List Event)
deriving DecidableEq, Repr

/-- The final world of a result. -/
def PyResult.world {α : Type} : PyResult α → World
  | .ok _ w _ => w
  | .raised _ w _ => w

/-- The effect trace of a result. -/
def PyResult.evs {α : Type} : PyResult α → List Event
  | .ok _ _ tr => tr
  | .raised _ _ tr => tr

/-- `true` iff the fragment raised. -/
def PyResult.isRaised {α : Type} : PyResult α → Bool
  | .ok _ _ _ => false
  | .raised _ _ _ => true

/-- The returned value, when the fragment returned normally. -/
def PyResult.okVal {α : Type} : PyResult α → Option α
  | .ok v _ _ => some v
  | .raised _ _ _ => none

/-- Association-list lookup in the filesystem. -/
def lookupFile (path : String) : List (String × FileContent) → Option FileContent
  | [] => none
  | (q, c) :: rest => if q = path then some c else lookupFile path rest

/-- Write a file: overwrite in place when the path exists, append otherwise. -/
def setFile (path : String) (c : FileContent) :
    List (String × FileContent) → List (String × FileContent)
  | [] => [(path, c)]
  | (q, c0) :: rest =>
      if q = path then (q, c) :: rest else (q, c0) :: setFile path c rest

/-- `s.startswith(pre)`, computed on the character list so that it reduces in
the kernel. -/
def str_startsWith (s pre : String) : Bool :=
  List.isPrefixOf pre.data s.data

/-- `s.endswith(suf)`, computed on the character list so that it reduces in
the kernel. -/
def str_endsWith (s suf : String) : Bool :=
  List.isSuffixOf suf.data s.data

/-- `os.path.join(a, b)` (POSIX, two arguments). -/
def os_path_join (a b : String) : String :=
  if str_startsWith b "/" then b
  else if a = "" then b
  else if str_endsWith a "/" then a ++ b
  else a ++ "/" ++ b

/-- `os.path.isfile(path)`: the path names an existing regular file. -/
def os_path_isfile (path : String) (w : World) : Bool :=
  (lookupFile path w.files).isSome

/-- `plt.figure(figsize=dims)`: open a fresh current figure. -/
def plt_figure (dims : Nat × Nat) (w : World) : World × List Event :=
  ({ w with openFigures := w.openFigures + 1,
            current := some { figsize := dims, content := none } },
   [Event.openFigure dims])

/-- `sns.heatmap(m, cbar=False, cmap="viridis")` on a renderable (nonzero-size)
matrix: draw the matrix onto the current figure (only the boolean matrix
matters functionally; the palette and the suppressed color bar are not
modelled).  `sns_heatmap_checked` below refines this with seaborn's failure on
a zero-size matrix. -/
def sns_heatmap (m : List (List Bool)) (w : World) : World × List Event :=
  (match w.current with
   | some f => { w with current := some { f with content := some m } }
   | none => w,
   [Event.renderHeatmap])

/-- `plt.savefig(path)`: write the current figure as a PNG at `path`, or raise
an `IOError` when the path is not writable (missing/unwritable directory). -/
def plt_savefig (path : String) (w : World) : Except PyError (World × List Event) :=
  if path ∈ w.unwritable then Except.error PyError.ioError
  else
    let fig := w.current.getD { figsize := (0, 0), content := none }
    Except.ok
      ({ w with files := setFile path (.pngImage fig.figsize (fig.content.getD [])) w.files },
       [Event.writeFile path])

/-- `plt.close()`: release the current figure. -/
def plt_close (w : World) : World × List Event :=
  ({ w with current := none, openFigures := w.openFigures - 1 },
   [Event.closeFigure])

/-- Base class `Visualizations`: holds the data frame, the output path and the
figure-size configuration. -/
structure Visualizations where
  df : DataFrame
  output_path : String
  dimensions : Nat × Nat
deriving DecidableEq, Repr

/-- `Visualizations.__init__` when the caller omits the `dimensions` argument:
the declared default is `(10, 6)`. -/
def Visualizations.initDefault (df : DataFrame) (output_path : String) : Visualizations :=
  { df := df, output_path := output_path, dimensions := (10, 6) }

/-- Concrete class `MissingValues`; it adds no state of its own. -/
structure MissingValues extends Visualizations
deriving DecidableEq, Repr

/-- `MissingValues.__init__(df, output_path)`: calls
`super().__init__(df=df, output_path=output_path)` and forwards no
`dimensions` argument. -/
def MissingValues.init (df : DataFrame) (output_path : String) : MissingValues :=
  { toVisualizations := Visualizations.initDefault df output_path }

/-- The `MissingValuesReturn` TypedDict. -/
structure MissingValuesReturn where
  missing_values_heatmap : String
deriving DecidableEq, Repr

/-- `MissingValues._missing_values_heatmap`: compute `df.isnull()`, open a
figure at the configured size, render the heatmap, save it at
`os.path.join(output_path, "missing_values_heatmap.png")`, close the figure
and return the path.  There is no try/finally: when `savefig` raises,
`plt.close()` is not executed. -/
def MissingValues._missing_values_heatmap (self : MissingValues) (w : World) :
    PyResult String :=
  let missing := self.df.isnull
  let s1 := plt_figure self.dimensions w
  let s2 := sns_heatmap missing s1.1
  let output_file := os_path_join self.output_path "missing_values_heatmap.png"
  match plt_savefig output_file s2.1 with
  | Except.error e => PyResult.raised e s2.1 (s1.2 ++ s2.2)
  | Except.ok s3 =>
      let s4 := plt_close s3.1
      PyResult.ok output_file s4.1 (s1.2 ++ s2.2 ++ s3.2 ++ s4.2)

/-- `MissingValues.generate`: wrap the heatmap path into the
`MissingValuesReturn` record. -/
def MissingValues.generate (self : MissingValues) (w : World) :
    PyResult MissingValuesReturn :=
  match self._missing_values_heatmap w with
  | PyResult.ok p w' tr => PyResult.ok { missing_values_heatmap := p } w' tr
  | PyResult.raised e w' tr => PyResult.raised e w' tr

/-- The library-level `Visualizations` TypedDict of `viz_lib/__init__.py`
(named `VisualizationsResult` here, as the spec calls it, to avoid clashing
with the base class). -/
structure VisualizationsResult where
  missing_values : MissingValuesReturn
deriving DecidableEq, Repr

/-- `viz_lib.generate(df, output_path)`: construct the `MissingValues`
visualization, run it, and wrap its result under the key `missing_values`. -/
def viz_lib.generate (df : DataFrame) (output_path : String) (w : World) :
    PyResult VisualizationsResult :=
  match (MissingValues.init df output_path).generate w with
  | PyResult.ok mv w' tr => PyResult.ok { missing_values := mv } w' tr
  | PyResult.raised e w' tr => PyResult.raised e w' tr

/-- A cell of a delimited text file: the empty field decodes to null/NaN. -/
def parseCell (s : String) : Cell :=
  if s = "" then none else some s

/-- `pd.read_csv(path, sep=sep)` on the file's content: first non-empty line
is the header, each further line splits on the separator; `none` models a
parser failure on non-text content. -/
def pd_read_csv (content : FileContent) (sep : String) : Option DataFrame :=
  match content with
  | .text s =>
      match (s.splitOn "\n").filter (fun l => l ≠ "") with
      | [] => some { rows := [] }
      | _header :: body =>
          some { rows := body.map (fun line => (line.splitOn sep).map parseCell) }
  | _ => none

/-- `pd.read_parquet(path)` on the file's content; `none` models a parser
failure on non-parquet content. -/
def pd_read_parquet (content : FileContent) : Option DataFrame :=
  match content with
  | .parquetData rows => some { rows := rows }
  | _ => none

/-- Outcome of the orchestrator's `match file_type` dispatch. -/
inductive LoadResult where
  /-- A case matched and its reader decoded a table into `df`. -/
  | table (df : DataFrame)
  /-- A case matched but its reader raised a decode error. -/
  | decodeFail
  /-- No case matched: the `match` has no default, so `df` stays unbound. -/
  | unset
deriving DecidableEq, Repr

/-- The `match file_type` statement of `generate_visualizations`: `csv` and
`tsv` go through `pd.read_csv` (separators `,` and tab), `parquet` through
`pd.read_parquet`; any other value matches no case and leaves `df` unset. -/
def loadDispatch (file_type : String) (content : FileContent) : LoadResult :=
  match file_type with
  | "csv" =>
      match pd_read_csv content "," with
      | some df => LoadResult.table df
      | none => LoadResult.decodeFail
  | "tsv" =>
      match pd_read_csv content "\t" with
      | some df => LoadResult.table df
      | none => LoadResult.decodeFail
  | "parquet" =>
      match pd_read_parquet content with
      | some df => LoadResult.table df
      | none => LoadResult.decodeFail
  | _ => LoadResult.unset

/-- `main.generate_visualizations(dataset_path, file_type, output_path)`:
raise `FileNotFoundError` when `os.path.isfile` fails, otherwise dispatch on
`file_type` to load the table and call `viz_lib.generate`.  Using `df` after
an unmatched dispatch is a use of an unbound local, modelled as
`UnboundLocalError`. -/
def generate_visualizations (dataset_path : String) (file_type : String)
    (output_path : String) (w : World) : PyResult VisualizationsResult :=
  if os_path_isfile dataset_path w = false then
    PyResult.raised
      (.fileNotFoundError ("File not found at path: " ++ dataset_path)) w
      [Event.checkIsFile dataset_path]
  else
    match loadDispatch file_type ((lookupFile dataset_path w.files).getD (.text "")) with
    | LoadResult.table df =>
        match viz_lib.generate df output_path w with
        | PyResult.ok v w' tr =>
            PyResult.ok v w'
              (Event.checkIsFile dataset_path :: Event.readFile dataset_path :: tr)
        | PyResult.raised e w' tr =>
            PyResult.raised e w'
              (Event.checkIsFile dataset_path :: Event.readFile dataset_path :: tr)
    | LoadResult.decodeFail =>
        PyResult.raised PyError.decodeError w
          [Event.checkIsFile dataset_path, Event.readFile dataset_path]
    | LoadResult.unset =>
        PyResult.raised PyError.unboundLocalError w
          [Event.checkIsFile dataset_path]

/-! ## Refined render model

Seaborn's heatmap computes its color limits with `np.nanmin`/`np.nanmax` over
the data, which raises `ValueError` on a zero-size array — the "empty table"
render failure the spec's error taxonomy names under `RenderOrIOError`.  The
refined model below adds exactly this failure to the render step; on every
nonzero-size matrix it agrees with the model above. -/

/-- Number of cells of a matrix; zero exactly for an empty table (no rows, or
no columns). -/
def matrixSize (m : List (List Bool)) : Nat :=
  (m.map List.length).sum

/-- `sns.heatmap` including its `ValueError` on a zero-size matrix; on a
renderable matrix it draws exactly like `sns_heatmap`. -/
def sns_heatmap_checked (m : List (List Bool)) (w : World) :
    Except PyError (World × List Event) :=
  if matrixSize m = 0 then Except.error PyError.valueError
  else Except.ok (sns_heatmap m w)

/-- `MissingValues._missing_values_heatmap` under the refined render model:
when `sns.heatmap` raises, the error propagates with the figure still open
(no try/finally), the save and close never run and no path is returned. -/
def MissingValues._missing_values_heatmap_checked (self : MissingValues)
    (w : World) : PyResult String :=
  let missing := self.df.isnull
  let s1 := plt_figure self.dimensions w
  match sns_heatmap_checked missing s1.1 with
  | Except.error e => PyResult.raised e s1.1 s1.2
  | Except.ok s2 =>
      let output_file := os_path_join self.output_path "missing_values_heatmap.png"
      match plt_savefig output_file s2.1 with
      | Except.error e => PyResult.raised e s2.1 (s1.2 ++ s2.2)
      | Except.ok s3 =>
          let s4 := plt_close s3.1
          PyResult.ok output_file s4.1 (s1.2 ++ s2.2 ++ s3.2 ++ s4.2)

/-- `MissingValues.generate` under the refined render model. -/
def MissingValues.generate_checked (self : MissingValues) (w : World) :
    PyResult MissingValuesReturn :=
  match self._missing_values_heatmap_checked w with
  | PyResult.ok p w' tr => PyResult.ok { missing_values_heatmap := p } w' tr
  | PyResult.raised e w' tr => PyResult.raised e w' tr

/-- `viz_lib.generate` under the refined render model. -/
def viz_lib.generate_checked (df : DataFrame) (output_path : String)
    (w : World) : PyResult VisualizationsResult :=
  match (MissingValues.init df output_path).generate_checked w with
  | PyResult.ok mv w' tr => PyResult.ok { missing_values := mv } w' tr
  | PyResult.raised e w' tr => PyResult.raised e w' tr

/-! ## Concrete fixtures -/

/-- The spec's end-to-end example table: 2×2 with nulls at (0,1) and (1,0). -/
def dfEx : DataFrame := { rows := [[some "1", none], [none, some "2"]] }

/-- An empty table: its missingness matrix has zero size, so the render step
raises under the refined model. -/
def dfEmpty : DataFrame := { rows := [] }

/-- A second nonempty table, different from `dfEx`. -/
def dfOne : DataFrame := { rows := [[none]] }

/-- A world holding one dataset file, everything writable. -/
def wEx : World :=
  { files := [("data.parquet", .parquetData [[some "1", none], [none, some "2"]])],
    unwritable := [],
    openFigures := 0,
    current := none }

/-- A world where the heatmap output path under `out` is unwritable. -/
def wBad : World :=
  { files := [],
    unwritable := ["out/missing_values_heatmap.png"],
    openFigures := 0,
    current := none }

/-! ## Helper lemmas -/

/-- Looking up a just-written path yields the written content. -/
theorem lookupFile_setFile_self (path : String) (c : FileContent)
    (fs : List (String × FileContent)) :
    lookupFile path (setFile path c fs) = some c := by
  induction fs with
  | nil => simp [setFile, lookupFile]
  | cons hd tl ih =>
      obtain ⟨q, c0⟩ := hd
      by_cases h : q = path
      · simp [setFile, lookupFile, h]
      · simp [setFile, lookupFile, h, ih]

/-- Writing one path leaves every other path's content unchanged. -/
theorem lookupFile_setFile_ne (p path : String) (c : FileContent)
    (fs : List (String × FileContent)) (h : p ≠ path) :
    lookupFile p (setFile path c fs) = lookupFile p fs := by
  induction fs with
  | nil => simp [setFile, lookupFile, Ne.symm h]
  | cons hd tl ih =>
      obtain ⟨q, c0⟩ := hd
      by_cases hq : q = path
      · subst hq
        simp [setFile, lookupFile, Ne.symm h]
      · simp [setFile, lookupFile, hq, ih]

/-- Writing the same path twice is the same as writing it once (overwrite in
place: the file map's keys do not grow). -/
theorem setFile_setFile (path : String) (c1 c2 : FileContent)
    (fs : List (String × FileContent)) :
    setFile path c1 (setFile path c2 fs) = setFile path c1 fs := by
  induction fs with
  | nil => simp [setFile]
  | cons hd tl ih =>
      obtain ⟨q, c0⟩ := hd
      by_cases hq : q = path
      · simp [setFile, hq]
      · simp [setFile, hq, ih]

/-- Shape of a successful `_missing_values_heatmap` run: the joined path is
returned, the PNG holding the full missingness matrix is written exactly
there, the figure is opened and then released, and the trace is
open-render-write-close. -/
theorem mvh_spec (self : MissingValues) (w : World)
    (h : os_path_join self.output_path "missing_values_heatmap.png" ∉ w.unwritable) :
    self._missing_values_heatmap w =
      PyResult.ok (os_path_join self.output_path "missing_values_heatmap.png")
        { files := setFile (os_path_join self.output_path "missing_values_heatmap.png")
                     (.pngImage self.dimensions self.df.isnull) w.files,
          unwritable := w.unwritable,
          openFigures := w.openFigures,
          current := none }
        [Event.openFigure self.dimensions, Event.renderHeatmap,
         Event.writeFile (os_path_join self.output_path "missing_values_heatmap.png"),
         Event.closeFigure] := by
  simp [MissingValues._missing_values_heatmap, plt_figure, sns_heatmap,
        plt_savefig, plt_close, h]

/-- Shape of a failing `_missing_values_heatmap` run (unwritable output path):
the `IOError` from the save step propagates, nothing is written, and the
figure stays open — `plt.close()` is never reached. -/
theorem mvh_fail (self : MissingValues) (w : World)
    (h : os_path_join self.output_path "missing_values_heatmap.png" ∈ w.unwritable) :
    self._missing_values_heatmap w =
      PyResult.raised PyError.ioError
        { files := w.files,
          unwritable := w.unwritable,
          openFigures := w.openFigures + 1,
          current := some { figsize := self.dimensions, content := some self.df.isnull } }
        [Event.openFigure self.dimensions, Event.renderHeatmap] := by
  simp [MissingValues._missing_values_heatmap, plt_figure, sns_heatmap,
        plt_savefig, plt_close, h]

/-- Shape of a successful `MissingValues(df, out).generate()` run: the record
maps `missing_values_heatmap` to the joined path, the PNG holding the full
missingness matrix at size (10, 6) is written exactly there, and the figure is
opened, drawn on, saved and released, in that order. -/
theorem mv_generate_ok (df : DataFrame) (out : String) (w : World)
    (h : os_path_join out "missing_values_heatmap.png" ∉ w.unwritable) :
    (MissingValues.init df out).generate w =
      PyResult.ok
        { missing_values_heatmap := os_path_join out "missing_values_heatmap.png" }
        { files := setFile (os_path_join out "missing_values_heatmap.png")
                     (.pngImage (10, 6) df.isnull) w.files,
          unwritable := w.unwritable,
          openFigures := w.openFigures,
          current := none }
        [Event.openFigure (10, 6), Event.renderHeatmap,
         Event.writeFile (os_path_join out "missing_values_heatmap.png"),
         Event.closeFigure] := by
  simp [MissingValues.generate, MissingValues._missing_values_heatmap,
        MissingValues.init, Visualizations.initDefault,
        plt_figure, sns_heatmap, plt_savefig, plt_close, h]

/-- Shape of a failing `MissingValues(df, out).generate()` run (unwritable
output path): the `IOError` from the save step propagates, nothing is written,
and the figure stays open — `plt.close()` is never reached. -/
theorem mv_generate_err (df : DataFrame) (out : String) (w : World)
    (h : os_path_join out "missing_values_heatmap.png" ∈ w.unwritable) :
    (MissingValues.init df out).generate w =
      PyResult.raised PyError.ioError
        { files := w.files,
          unwritable := w.unwritable,
          openFigures := w.openFigures + 1,
          current := some { figsize := (10, 6), content := some df.isnull } }
        [Event.openFigure (10, 6), Event.renderHeatmap] := by
  simp [MissingValues.generate, MissingValues._missing_values_heatmap,
        MissingValues.init, Visualizations.initDefault,
        plt_figure, sns_heatmap, plt_savefig, plt_close, h]

/-- Shape of a successful `generate` run under the refined render model: on a
renderable (nonzero-size) table and a writable path, it coincides with the
unchecked success shape. -/
theorem mv_generate_checked_ok (df : DataFrame) (out : String) (w : World)
    (hr : matrixSize df.isnull ≠ 0)
    (h : os_path_join out "missing_values_heatmap.png" ∉ w.unwritable) :
    (MissingValues.init df out).generate_checked w =
      PyResult.ok
        { missing_values_heatmap := os_path_join out "missing_values_heatmap.png" }
        { files := setFile (os_path_join out "missing_values_heatmap.png")
                     (.pngImage (10, 6) df.isnull) w.files,
          unwritable := w.unwritable,
          openFigures := w.openFigures,
          current := none }
        [Event.openFigure (10, 6), Event.renderHeatmap,
         Event.writeFile (os_path_join out "missing_values_heatmap.png"),
         Event.closeFigure] := by
  simp [MissingValues.generate_checked,
        MissingValues._missing_values_heatmap_checked,
        MissingValues.init, Visualizations.initDefault, sns_heatmap_checked,
        plt_figure, sns_heatmap, plt_savefig, plt_close, hr, h]

/-! ## Claims -/

/-- C1: for every data table and output directory, `MissingValues.generate()`
returns a record whose single key `missing_values_heatmap` maps to exactly
`os.path.join(output_path, "missing_values_heatmap.png")`, that same path is
the one passed to the save step (the `writeFile` event), and the written file
sits at that path. -/
theorem C1_generate_returns_joined_saved_path (df : DataFrame) (out : String)
    (w : World)
    (h : os_path_join out "missing_values_heatmap.png" ∉ w.unwritable) :
    (MissingValues.init df out).generate w =
      PyResult.ok
        { missing_values_heatmap := os_path_join out "missing_values_heatmap.png" }
        { files := setFile (os_path_join out "missing_values_heatmap.png")
                     (.pngImage (10, 6) df.isnull) w.files,
          unwritable := w.unwritable,
          openFigures := w.openFigures,
          current := none }
        [Event.openFigure (10, 6), Event.renderHeatmap,
         Event.writeFile (os_path_join out "missing_values_heatmap.png"),
         Event.closeFigure] ∧
    lookupFile (os_path_join out "missing_values_heatmap.png")
        (setFile (os_path_join out "missing_values_heatmap.png")
          (.pngImage (10, 6) df.isnull) w.files) =
      some (.pngImage (10, 6) df.isnull) :=
  ⟨mv_generate_ok df out w h, lookupFile_setFile_self _ _ _⟩

/-- Witness for C1 at the spec's example table. -/
theorem C1_generate_returns_joined_saved_path_witness :
    (MissingValues.init dfEx "out").generate wEx =
      PyResult.ok
        { missing_values_heatmap := os_path_join "out" "missing_values_heatmap.png" }
        { files := setFile (os_path_join "out" "missing_values_heatmap.png")
                     (.pngImage (10, 6) dfEx.isnull) wEx.files,
          unwritable := wEx.unwritable,
          openFigures := wEx.openFigures,
          current := none }
        [Event.openFigure (10, 6), Event.renderHeatmap,
         Event.writeFile (os_path_join "out" "missing_values_heatmap.png"),
         Event.closeFigure] ∧
    lookupFile (os_path_join "out" "missing_values_heatmap.png")
        (setFile (os_path_join "out" "missing_values_heatmap.png")
          (.pngImage (10, 6) dfEx.isnull) wEx.files) =
      some (.pngImage (10, 6) dfEx.isnull) :=
  C1_generate_returns_joined_saved_path dfEx "out" wEx (by decide)

/-- C2: when the dataset path names no existing file, `generate_visualizations`
raises `FileNotFoundError` with the exact message built from the path,
unchanged, for every `file_type` and `output_path`; the world is untouched and
the trace holds only the existence check — no file read happens. -/
theorem C2_missing_dataset_raises_before_read (dataset_path file_type
    output_path : String) (w : World)
    (h : os_path_isfile dataset_path w = false) :
    generate_visualizations dataset_path file_type output_path w =
      PyResult.raised
        (.fileNotFoundError ("File not found at path: " ++ dataset_path)) w
        [Event.checkIsFile dataset_path] ∧
    (generate_visualizations dataset_path file_type output_path w).evs.filter
        Event.isRead = [] ∧
    (generate_visualizations dataset_path file_type output_path w).evs.filter
        Event.isWrite = [] ∧
    (generate_visualizations dataset_path file_type output_path w).world = w := by
  refine ⟨?_, ?_, ?_, ?_⟩ <;>
    simp [generate_visualizations, h, PyResult.evs, PyResult.world,
          Event.isRead, Event.isWrite]

/-- Witness for C2 at a path absent from the fixture world. -/
theorem C2_missing_dataset_raises_before_read_witness :
    generate_visualizations "missing.csv" "csv" "out" wEx =
      PyResult.raised
        (.fileNotFoundError ("File not found at path: " ++ "missing.csv")) wEx
        [Event.checkIsFile "missing.csv"] ∧
    (generate_visualizations "missing.csv" "csv" "out" wEx).evs.filter
        Event.isRead = [] ∧
    (generate_visualizations "missing.csv" "csv" "out" wEx).evs.filter
        Event.isWrite = [] ∧
    (generate_visualizations "missing.csv" "csv" "out" wEx).world = wEx :=
  C2_missing_dataset_raises_before_read "missing.csv" "csv" "out" wEx (by decide)

/-- C9: every `MissingValues` instance built by its constructor has the default
figure-size configuration (10, 6) — the constructor takes only the table and
the output path and forwards no dimensions — and every `generate` run opens
its figure at exactly that size, whether or not the save step succeeds. -/
theorem C9_dimensions_always_default (df : DataFrame) (out : String) (w : World) :
    (MissingValues.init df out).dimensions = (10, 6) ∧
    ((MissingValues.init df out).generate w).evs.head? =
      some (Event.openFigure (10, 6)) := by
  constructor
  · simp [MissingValues.init, Visualizations.initDefault]
  · by_cases h : os_path_join out "missing_values_heatmap.png" ∈ w.unwritable
    · simp [mv_generate_err df out w h, PyResult.evs]
    · simp [mv_generate_ok df out w h, PyResult.evs]

/-- C10 counterexample: under the refined render model, the example table and
the empty table — same output directory, same writable world — do NOT return
equal result records: the first run returns the path record, while on the
empty table the render step raises `ValueError` (zero-size matrix) and no
record is returned, at the class level and the library level alike.  Success
itself depends on the data table, so the result record does not depend on the
output path alone. -/
theorem C10_counterexample_empty_table_render_fails :
    ((MissingValues.init dfEx "out").generate_checked wEx).okVal =
      some { missing_values_heatmap := "out/missing_values_heatmap.png" } ∧
    ((MissingValues.init dfEmpty "out").generate_checked wEx).isRaised = true ∧
    ((MissingValues.init dfEmpty "out").generate_checked wEx).okVal = none ∧
    ((MissingValues.init dfEx "out").generate_checked wEx).okVal ≠
      ((MissingValues.init dfEmpty "out").generate_checked wEx).okVal ∧
    (viz_lib.generate_checked dfEx "out" wEx).okVal ≠
      (viz_lib.generate_checked dfEmpty "out" wEx).okVal := by
  decide

/-- C10 (amended): for any two data tables on which the heatmap renders
(nonzero-size missingness matrices) and the same output path, the two runs —
under the render model that includes the empty-table failure — return equal
result records, namely the record built from the output path and the fixed
filename alone; likewise at the library `generate` level. -/
theorem C10_record_table_independent_once_rendered (df1 df2 : DataFrame)
    (out : String) (w1 w2 : World)
    (hr1 : matrixSize df1.isnull ≠ 0) (hr2 : matrixSize df2.isnull ≠ 0)
    (h1 : os_path_join out "missing_values_heatmap.png" ∉ w1.unwritable)
    (h2 : os_path_join out "missing_values_heatmap.png" ∉ w2.unwritable) :
    ((MissingValues.init df1 out).generate_checked w1).okVal =
      ((MissingValues.init df2 out).generate_checked w2).okVal ∧
    ((MissingValues.init df1 out).generate_checked w1).okVal =
      some { missing_values_heatmap := os_path_join out "missing_values_heatmap.png" } ∧
    (viz_lib.generate_checked df1 out w1).okVal =
      (viz_lib.generate_checked df2 out w2).okVal ∧
    (viz_lib.generate_checked df1 out w1).okVal =
      some { missing_values :=
               { missing_values_heatmap := os_path_join out "missing_values_heatmap.png" } } := by
  refine ⟨?_, ?_, ?_, ?_⟩ <;>
    simp [viz_lib.generate_checked, mv_generate_checked_ok df1 out w1 hr1 h1,
          mv_generate_checked_ok df2 out w2 hr2 h2, PyResult.okVal]

/-- Witness for the amended C10: two different renderable tables. -/
theorem C10_record_table_independent_once_rendered_witness :
    ((MissingValues.init dfEx "out").generate_checked wEx).okVal =
      ((MissingValues.init dfOne "out").generate_checked wEx).okVal ∧
    ((MissingValues.init dfEx "out").generate_checked wEx).okVal =
      some { missing_values_heatmap := os_path_join "out" "missing_values_heatmap.png" } ∧
    (viz_lib.generate_checked dfEx "out" wEx).okVal =
      (viz_lib.generate_checked dfOne "out" wEx).okVal ∧
    (viz_lib.generate_checked dfEx "out" wEx).okVal =
      some { missing_values :=
               { missing_values_heatmap := os_path_join "out" "missing_values_heatmap.png" } } :=
  C10_record_table_independent_once_rendered dfEx dfOne "out" wEx wEx
    (by decide) (by decide) (by decide) (by decide)

/-- C3 counterexample: a concrete run (2×2 table, output directory `out`,
world where the heatmap path is unwritable) in which the save step raises and
the figure is NOT released — the open-figure count rises from 0 to 1 and no
`closeFigure` event occurs, because `plt.close()` follows `plt.savefig`
without a try/finally. -/
theorem C3_counterexample_save_failure_leaks_figure :
    ((MissingValues.init dfEx "out").generate wBad).isRaised = true ∧
    wBad.openFigures = 0 ∧
    ((MissingValues.init dfEx "out").generate wBad).world.openFigures = 1 ∧
    Event.closeFigure ∉ ((MissingValues.init dfEx "out").generate wBad).evs := by
  decide

/-- C3 (amended): the figure is released after a successful save — the run
ends with a `closeFigure` event and the open-figure count returns to its
initial value — but when the save step raises, `plt.close()` is skipped: the
error propagates with the figure still open. -/
theorem C3_figure_release_only_on_success (df : DataFrame) (out : String)
    (wg wb : World)
    (hg : os_path_join out "missing_values_heatmap.png" ∉ wg.unwritable)
    (hb : os_path_join out "missing_values_heatmap.png" ∈ wb.unwritable) :
    ((MissingValues.init df out).generate wg).world.openFigures = wg.openFigures ∧
    ((MissingValues.init df out).generate wg).world.current = none ∧
    ((MissingValues.init df out).generate wg).evs.getLast? =
      some Event.closeFigure ∧
    ((MissingValues.init df out).generate wb).isRaised = true ∧
    ((MissingValues.init df out).generate wb).world.openFigures =
      wb.openFigures + 1 ∧
    Event.closeFigure ∉ ((MissingValues.init df out).generate wb).evs := by
  refine ⟨?_, ?_, ?_, ?_, ?_, ?_⟩ <;>
    simp [mv_generate_ok df out wg hg, mv_generate_err df out wb hb,
          PyResult.world, PyResult.evs, PyResult.isRaised]

/-- Witness for the amended C3 at the fixture worlds. -/
theorem C3_figure_release_only_on_success_witness :
    ((MissingValues.init dfEx "out").generate wEx).world.openFigures =
      wEx.openFigures ∧
    ((MissingValues.init dfEx "out").generate wEx).world.current = none ∧
    ((MissingValues.init dfEx "out").generate wEx).evs.getLast? =
      some Event.closeFigure ∧
    ((MissingValues.init dfEx "out").generate wBad).isRaised = true ∧
    ((MissingValues.init dfEx "out").generate wBad).world.openFigures =
      wBad.openFigures + 1 ∧
    Event.closeFigure ∉ ((MissingValues.init dfEx "out").generate wBad).evs :=
  C3_figure_release_only_on_success dfEx "out" wEx wBad (by decide) (by decide)

/-- C4: for any `file_type` outside {csv, tsv, parquet} with an existing
dataset file, the dispatch matches no case and rejects nothing — the table
stays unset — and the subsequent use of `df` is a use of an unbound local
(`UnboundLocalError`), which is none of the declared error kinds. -/
theorem C4_unrecognized_file_type_unbound_local (dataset_path file_type
    output_path : String) (w : World) (content : FileContent)
    (hf : lookupFile dataset_path w.files = some content)
    (h1 : file_type ≠ "csv") (h2 : file_type ≠ "tsv")
    (h3 : file_type ≠ "parquet") :
    loadDispatch file_type content = LoadResult.unset ∧
    generate_visualizations dataset_path file_type output_path w =
      PyResult.raised PyError.unboundLocalError w
        [Event.checkIsFile dataset_path] ∧
    PyError.unboundLocalError ≠
      PyError.fileNotFoundError ("File not found at path: " ++ dataset_path) ∧
    PyError.unboundLocalError ≠ PyError.decodeError ∧
    PyError.unboundLocalError ≠ PyError.ioError := by
  have hdisp : loadDispatch file_type content = LoadResult.unset := by
    unfold loadDispatch
    split <;> simp_all
  have hdisp' : ∀ c : FileContent, loadDispatch file_type c = LoadResult.unset := by
    intro c
    unfold loadDispatch
    split <;> simp_all
  refine ⟨hdisp, ?_, by simp, by simp, by simp⟩
  simp [generate_visualizations, os_path_isfile, hf, hdisp']

/-- Witness for C4 at `file_type = "json"`. -/
theorem C4_unrecognized_file_type_unbound_local_witness :
    loadDispatch "json" (.parquetData [[some "1", none], [none, some "2"]]) =
      LoadResult.unset ∧
    generate_visualizations "data.parquet" "json" "out" wEx =
      PyResult.raised PyError.unboundLocalError wEx
        [Event.checkIsFile "data.parquet"] ∧
    PyError.unboundLocalError ≠
      PyError.fileNotFoundError ("File not found at path: " ++ "data.parquet") ∧
    PyError.unboundLocalError ≠ PyError.decodeError ∧
    PyError.unboundLocalError ≠ PyError.ioError :=
  C4_unrecognized_file_type_unbound_local "data.parquet" "json" "out" wEx
    (.parquetData [[some "1", none], [none, some "2"]])
    (by decide) (by decide) (by decide) (by decide)

/-- C5: every successful `generate_visualizations` call returns the
`VisualizationsResult` record holding exactly one entry, `missing_values`,
and that entry is precisely the record `MissingValues.generate` produces. -/
theorem C5_result_single_missing_values_entry (dataset_path file_type
    output_path : String) (w : World) (content : FileContent) (df : DataFrame)
    (hf : lookupFile dataset_path w.files = some content)
    (hd : loadDispatch file_type content = LoadResult.table df)
    (hw : os_path_join output_path "missing_values_heatmap.png" ∉ w.unwritable) :
    generate_visualizations dataset_path file_type output_path w =
      PyResult.ok
        { missing_values :=
            { missing_values_heatmap :=
                os_path_join output_path "missing_values_heatmap.png" } }
        { files := setFile (os_path_join output_path "missing_values_heatmap.png")
                     (.pngImage (10, 6) df.isnull) w.files,
          unwritable := w.unwritable,
          openFigures := w.openFigures,
          current := none }
        [Event.checkIsFile dataset_path, Event.readFile dataset_path,
         Event.openFigure (10, 6), Event.renderHeatmap,
         Event.writeFile (os_path_join output_path "missing_values_heatmap.png"),
         Event.closeFigure] ∧
    ((MissingValues.init df output_path).generate w).okVal =
      some { missing_values_heatmap :=
               os_path_join output_path "missing_values_heatmap.png" } := by
  constructor
  · simp [generate_visualizations, os_path_isfile, hf, hd, viz_lib.generate,
          mv_generate_ok df output_path w hw]
  · simp [mv_generate_ok df output_path w hw, PyResult.okVal]

/-- Witness for C5 on the parquet fixture. -/
theorem C5_result_single_missing_values_entry_witness :
    generate_visualizations "data.parquet" "parquet" "out" wEx =
      PyResult.ok
        { missing_values :=
            { missing_values_heatmap :=
                os_path_join "out" "missing_values_heatmap.png" } }
        { files := setFile (os_path_join "out" "missing_values_heatmap.png")
                     (.pngImage (10, 6) dfEx.isnull) wEx.files,
          unwritable := wEx.unwritable,
          openFigures := wEx.openFigures,
          current := none }
        [Event.checkIsFile "data.parquet", Event.readFile "data.parquet",
         Event.openFigure (10, 6), Event.renderHeatmap,
         Event.writeFile (os_path_join "out" "missing_values_heatmap.png"),
         Event.closeFigure] ∧
    ((MissingValues.init dfEx "out").generate wEx).okVal =
      some { missing_values_heatmap :=
               os_path_join "out" "missing_values_heatmap.png" } :=
  C5_result_single_missing_values_entry "data.parquet" "parquet" "out" wEx
    (.parquetData [[some "1", none], [none, some "2"]]) dfEx
    (by decide) (by decide) (by decide)

/-- C6: the missingness matrix `df.isnull()` has the same shape as the table
(row count, and each row's length), each cell is `true` exactly when the
source cell is null, and a `generate` run computes and saves exactly this
matrix over the full table — no sampling, no filtering. -/
theorem C6_missingness_matrix_full_table (df : DataFrame) (out : String)
    (w : World) (r c : Nat) (row : List Cell) (cell : Cell)
    (hw : os_path_join out "missing_values_heatmap.png" ∉ w.unwritable)
    (hr : df.rows[r]? = some row) (hc : row[c]? = some cell) :
    lookupFile (os_path_join out "missing_values_heatmap.png")
        (((MissingValues.init df out).generate w).world).files =
      some (.pngImage (10, 6) df.isnull) ∧
    df.isnull.length = df.rows.length ∧
    df.isnull[r]? = some (row.map Option.isNone) ∧
    (row.map Option.isNone).length = row.length ∧
    (row.map Option.isNone)[c]? = some cell.isNone ∧
    (cell.isNone = true ↔ cell = none) := by
  refine ⟨?_, ?_, ?_, ?_, ?_, ?_⟩
  · simp [mv_generate_ok df out w hw, PyResult.world, lookupFile_setFile_self]
  · simp [DataFrame.isnull]
  · simp [DataFrame.isnull, List.getElem?_map, hr]
  · simp
  · simp [List.getElem?_map, hc]
  · exact Option.isNone_iff_eq_none

/-- Witness for C6 at cell (0, 1) of the example table (a null cell). -/
theorem C6_missingness_matrix_full_table_witness :
    lookupFile (os_path_join "out" "missing_values_heatmap.png")
        (((MissingValues.init dfEx "out").generate wEx).world).files =
      some (.pngImage (10, 6) dfEx.isnull) ∧
    dfEx.isnull.length = dfEx.rows.length ∧
    dfEx.isnull[0]? = some ([some "1", none].map Option.isNone) ∧
    ([some "1", none].map Option.isNone).length = [some "1", none].length ∧
    ([some "1", none].map Option.isNone)[1]? = some (Option.isNone (none : Cell)) ∧
    (Option.isNone (none : Cell) = true ↔ (none : Cell) = none) :=
  C6_missingness_matrix_full_table dfEx "out" wEx 0 1 [some "1", none] none
    (by decide) (by decide) (by decide)

/-- C7: a `generate` run touches the filesystem exactly once — one write, at
the heatmap path — performs no reads, leaves every other file unchanged, and
the instance's table is exactly the table it was constructed with (the
embedding passes the table by value; nothing writes to it). -/
theorem C7_no_mutation_exactly_one_write (df : DataFrame) (out : String)
    (w : World) (p : String)
    (hw : os_path_join out "missing_values_heatmap.png" ∉ w.unwritable)
    (hp : p ≠ os_path_join out "missing_values_heatmap.png") :
    ((MissingValues.init df out).generate w).evs.filter Event.isFsOp =
      [Event.writeFile (os_path_join out "missing_values_heatmap.png")] ∧
    ((MissingValues.init df out).generate w).evs.filter Event.isRead = [] ∧
    lookupFile p (((MissingValues.init df out).generate w).world).files =
      lookupFile p w.files ∧
    (MissingValues.init df out).df = df := by
  refine ⟨?_, ?_, ?_, ?_⟩
  · simp [mv_generate_ok df out w hw, PyResult.evs, Event.isFsOp, List.filter]
  · simp [mv_generate_ok df out w hw, PyResult.evs, Event.isRead, List.filter]
  · simp [mv_generate_ok df out w hw, PyResult.world,
          lookupFile_setFile_ne _ _ _ _ hp]
  · simp [MissingValues.init, Visualizations.initDefault]

/-- Witness for C7: the dataset file itself is untouched by the run. -/
theorem C7_no_mutation_exactly_one_write_witness :
    ((MissingValues.init dfEx "out").generate wEx).evs.filter Event.isFsOp =
      [Event.writeFile (os_path_join "out" "missing_values_heatmap.png")] ∧
    ((MissingValues.init dfEx "out").generate wEx).evs.filter Event.isRead = [] ∧
    lookupFile "data.parquet"
        (((MissingValues.init dfEx "out").generate wEx).world).files =
      lookupFile "data.parquet" wEx.files ∧
    (MissingValues.init dfEx "out").df = dfEx :=
  C7_no_mutation_exactly_one_write dfEx "out" wEx "data.parquet"
    (by decide) (by decide)

/-- C8: running `generate` twice on the same instance writes the same path
both times and overwrites in place — the second call returns the same record,
reproduces the identical world (no new or stale files: the file map is
unchanged) and the identical trace. -/
theorem C8_second_generate_overwrites_in_place (df : DataFrame) (out : String)
    (w : World)
    (hw : os_path_join out "missing_values_heatmap.png" ∉ w.unwritable) :
    (MissingValues.init df out).generate w =
      PyResult.ok
        { missing_values_heatmap := os_path_join out "missing_values_heatmap.png" }
        { files := setFile (os_path_join out "missing_values_heatmap.png")
                     (.pngImage (10, 6) df.isnull) w.files,
          unwritable := w.unwritable,
          openFigures := w.openFigures,
          current := none }
        [Event.openFigure (10, 6), Event.renderHeatmap,
         Event.writeFile (os_path_join out "missing_values_heatmap.png"),
         Event.closeFigure] ∧
    (MissingValues.init df out).generate
        { files := setFile (os_path_join out "missing_values_heatmap.png")
                     (.pngImage (10, 6) df.isnull) w.files,
          unwritable := w.unwritable,
          openFigures := w.openFigures,
          current := none } =
      PyResult.ok
        { missing_values_heatmap := os_path_join out "missing_values_heatmap.png" }
        { files := setFile (os_path_join out "missing_values_heatmap.png")
                     (.pngImage (10, 6) df.isnull) w.files,
          unwritable := w.unwritable,
          openFigures := w.openFigures,
          current := none }
        [Event.openFigure (10, 6), Event.renderHeatmap,
         Event.writeFile (os_path_join out "missing_values_heatmap.png"),
         Event.closeFigure] := by
  constructor
  · exact mv_generate_ok df out w hw
  · have h2 := mv_generate_ok df out
      { files := setFile (os_path_join out "missing_values_heatmap.png")
                   (.pngImage (10, 6) df.isnull) w.files,
        unwritable := w.unwritable,
        openFigures := w.openFigures,
        current := none } hw
    simpa [setFile_setFile] using h2

/-- Witness for C8 at the example fixture. -/
theorem C8_second_generate_overwrites_in_place_witness :
    (MissingValues.init dfEx "out").generate wEx =
      PyResult.ok
        { missing_values_heatmap := os_path_join "out" "missing_values_heatmap.png" }
        { files := setFile (os_path_join "out" "missing_values_heatmap.png")
                     (.pngImage (10, 6) dfEx.isnull) wEx.files,
          unwritable := wEx.unwritable,
          openFigures := wEx.openFigures,
          current := none }
        [Event.openFigure (10, 6), Event.renderHeatmap,
         Event.writeFile (os_path_join "out" "missing_values_heatmap.png"),
         Event.closeFigure] ∧
    (MissingValues.init dfEx "out").generate
        { files := setFile (os_path_join "out" "missing_values_heatmap.png")
                     (.pngImage (10, 6) dfEx.isnull) wEx.files,
          unwritable := wEx.unwritable,
          openFigures := wEx.openFigures,
          current := none } =
      PyResult.ok
        { missing_values_heatmap := os_path_join "out" "missing_values_heatmap.png" }
        { files := setFile (os_path_join "out" "missing_values_heatmap.png")
                     (.pngImage (10, 6) dfEx.isnull) wEx.files,
          unwritable := wEx.unwritable,
          openFigures := wEx.openFigures,
          current := none }
        [Event.openFigure (10, 6), Event.renderHeatmap,
         Event.writeFile (os_path_join "out" "missing_values_heatmap.png"),
         Event.closeFigure] :=
  C8_second_generate_overwrites_in_place dfEx "out" wEx (by decide)
